import Mathlib

/-!
Shallow embedding of the two AWS Lambda handlers of the
rental-property-investment-calculator repository:
  the analysis flow in src/anthropic_lambda/anthropic_function.py and the
  record flow in src/lambda/lambda_function.py.
Decoded Python JSON values are modelled by `J`; Python `json.loads` is
modelled by a recursive-descent parser `json_loads` following the strict
JSON grammar used by Python (integer tokens become `J.num`, non-integer
numeric tokens are kept symbolically as their raw token in `J.flt`);
the handler code is modelled by explicit `Except`-passing functions, with
the external collaborators (the Bedrock inference call and the DynamoDB
write) supplied as parameters.
-/

namespace RPIC

/-- Model of a decoded Python JSON value (result of `json.loads`).
Objects are key/value lists in insertion order with a later duplicate key
overriding the earlier value in place, matching Python dict construction. -/
inductive J where
  | null : J
  | bool : Bool → J
  | num : Int → J
  | flt : String → J
  | str : String → J
  | arr : List J → J
  | obj : List (String × J) → J
deriving Repr

mutual

def J.decEq : (a b : J) → Decidable (a = b)
  | .null, .null => isTrue rfl
  | .bool a, .bool b =>
      match instDecidableEqBool a b with
      | isTrue h => isTrue (by rw [h])
      | isFalse h => isFalse (by intro hh; injection hh; contradiction)
  | .num a, .num b =>
      match Int.decEq a b with
      | isTrue h => isTrue (by rw [h])
      | isFalse h => isFalse (by intro hh; injection hh; contradiction)
  | .flt a, .flt b =>
      match String.decEq a b with
      | isTrue h => isTrue (by rw [h])
      | isFalse h => isFalse (by intro hh; injection hh; contradiction)
  | .str a, .str b =>
      match String.decEq a b with
      | isTrue h => isTrue (by rw [h])
      | isFalse h => isFalse (by intro hh; injection hh; contradiction)
  | .arr xs, .arr ys =>
      match J.decEqList xs ys with
      | isTrue h => isTrue (by rw [h])
      | isFalse h => isFalse (by intro hh; injection hh; contradiction)
  | .obj xs, .obj ys =>
      match J.decEqKV xs ys with
      | isTrue h => isTrue (by rw [h])
      | isFalse h => isFalse (by intro hh; injection hh; contradiction)
  | .null, .bool _ => isFalse (fun h => J.noConfusion h)
  | .null, .num _ => isFalse (fun h => J.noConfusion h)
  | .null, .flt _ => isFalse (fun h => J.noConfusion h)
  | .null, .str _ => isFalse (fun h => J.noConfusion h)
  | .null, .arr _ => isFalse (fun h => J.noConfusion h)
  | .null, .obj _ => isFalse (fun h => J.noConfusion h)
  | .bool _, .null => isFalse (fun h => J.noConfusion h)
  | .bool _, .num _ => isFalse (fun h => J.noConfusion h)
  | .bool _, .flt _ => isFalse (fun h => J.noConfusion h)
  | .bool _, .str _ => isFalse (fun h => J.noConfusion h)
  | .bool _, .arr _ => isFalse (fun h => J.noConfusion h)
  | .bool _, .obj _ => isFalse (fun h => J.noConfusion h)
  | .num _, .null => isFalse (fun h => J.noConfusion h)
  | .num _, .bool _ => isFalse (fun h => J.noConfusion h)
  | .num _, .flt _ => isFalse (fun h => J.noConfusion h)
  | .num _, .str _ => isFalse (fun h => J.noConfusion h)
  | .num _, .arr _ => isFalse (fun h => J.noConfusion h)
  | .num _, .obj _ => isFalse (fun h => J.noConfusion h)
  | .flt _, .null => isFalse (fun h => J.noConfusion h)
  | .flt _, .bool _ => isFalse (fun h => J.noConfusion h)
  | .flt _, .num _ => isFalse (fun h => J.noConfusion h)
  | .flt _, .str _ => isFalse (fun h => J.noConfusion h)
  | .flt _, .arr _ => isFalse (fun h => J.noConfusion h)
  | .flt _, .obj _ => isFalse (fun h => J.noConfusion h)
  | .str _, .null => isFalse (fun h => J.noConfusion h)
  | .str _, .bool _ => isFalse (fun h => J.noConfusion h)
  | .str _, .num _ => isFalse (fun h => J.noConfusion h)
  | .str _, .flt _ => isFalse (fun h => J.noConfusion h)
  | .str _, .arr _ => isFalse (fun h => J.noConfusion h)
  | .str _, .obj _ => isFalse (fun h => J.noConfusion h)
  | .arr _, .null => isFalse (fun h => J.noConfusion h)
  | .arr _, .bool _ => isFalse (fun h => J.noConfusion h)
  | .arr _, .num _ => isFalse (fun h => J.noConfusion h)
  | .arr _, .flt _ => isFalse (fun h => J.noConfusion h)
  | .arr _, .str _ => isFalse (fun h => J.noConfusion h)
  | .arr _, .obj _ => isFalse (fun h => J.noConfusion h)
  | .obj _, .null => isFalse (fun h => J.noConfusion h)
  | .obj _, .bool _ => isFalse (fun h => J.noConfusion h)
  | .obj _, .num _ => isFalse (fun h => J.noConfusion h)
  | .obj _, .flt _ => isFalse (fun h => J.noConfusion h)
  | .obj _, .str _ => isFalse (fun h => J.noConfusion h)
  | .obj _, .arr _ => isFalse (fun h => J.noConfusion h)

def J.decEqList : (a b : List J) → Decidable (a = b)
  | [], [] => isTrue rfl
  | [], _ :: _ => isFalse (fun h => List.noConfusion h)
  | _ :: _, [] => isFalse (fun h => List.noConfusion h)
  | x :: xs, y :: ys =>
      match J.decEq x y, J.decEqList xs ys with
      | isTrue h1, isTrue h2 => isTrue (by rw [h1, h2])
      | isFalse h1, _ => isFalse (by intro hh; injection hh; contradiction)
      | _, isFalse h2 => isFalse (by intro hh; injection hh; contradiction)

def J.decEqKV : (a b : List (String × J)) → Decidable (a = b)
  | [], [] => isTrue rfl
  | [], _ :: _ => isFalse (fun h => List.noConfusion h)
  | _ :: _, [] => isFalse (fun h => List.noConfusion h)
  | (k, v) :: xs, (l, w) :: ys =>
      match String.decEq k l, J.decEq v w, J.decEqKV xs ys with
      | isTrue h1, isTrue h2, isTrue h3 => isTrue (by rw [h1, h2, h3])
      | isFalse h1, _, _ =>
          isFalse (by intro hh; injection hh with h4 h5; exact h1 (congrArg Prod.fst h4))
      | _, isFalse h2, _ =>
          isFalse (by intro hh; injection hh with h4 h5; exact h2 (congrArg Prod.snd h4))
      | _, _, isFalse h3 =>
          isFalse (by intro hh; injection hh with h4 h5; exact h3 h5)

end

instance : DecidableEq J := J.decEq

/-! ## Model of Python json.loads -/

/-- JSON whitespace characters skipped by the Python json scanner. -/
def isJsonWs (c : Char) : Bool :=
  c = ' ' || c = '\t' || c = '\n' || c = '\r'

def skipWs (s : List Char) : List Char := s.dropWhile isJsonWs

def hexVal (c : Char) : Option Nat :=
  if '0' ≤ c ∧ c ≤ '9' then some (c.toNat - '0'.toNat)
  else if 'a' ≤ c ∧ c ≤ 'f' then some (c.toNat - 'a'.toNat + 10)
  else if 'A' ≤ c ∧ c ≤ 'F' then some (c.toNat - 'A'.toNat + 10)
  else none

/-- Parse the body of a JSON string literal, positioned after the opening
quote; returns the decoded characters and the rest after the closing quote.
Python strict mode rejects raw control characters below 0x20. -/
def pStr : List Char → Option (List Char × List Char)
  | [] => none
  | '"' :: rest => some ([], rest)
  | '\\' :: '"' :: rest => (fun p => ('"' :: p.1, p.2)) <$> pStr rest
  | '\\' :: '\\' :: rest => (fun p => ('\\' :: p.1, p.2)) <$> pStr rest
  | '\\' :: '/' :: rest => (fun p => ('/' :: p.1, p.2)) <$> pStr rest
  | '\\' :: 'b' :: rest => (fun p => ('\x08' :: p.1, p.2)) <$> pStr rest
  | '\\' :: 'f' :: rest => (fun p => ('\x0c' :: p.1, p.2)) <$> pStr rest
  | '\\' :: 'n' :: rest => (fun p => ('\n' :: p.1, p.2)) <$> pStr rest
  | '\\' :: 'r' :: rest => (fun p => ('\r' :: p.1, p.2)) <$> pStr rest
  | '\\' :: 't' :: rest => (fun p => ('\t' :: p.1, p.2)) <$> pStr rest
  | '\\' :: 'u' :: a :: b :: c :: d :: rest =>
      match hexVal a, hexVal b, hexVal c, hexVal d with
      | some ha, some hb, some hc, some hd =>
          (fun p => (Char.ofNat (((ha * 16 + hb) * 16 + hc) * 16 + hd) :: p.1, p.2)) <$>
            pStr rest
      | _, _, _, _ => none
  | '\\' :: _ => none
  | c :: rest => if c.toNat < 32 then none else (fun p => (c :: p.1, p.2)) <$> pStr rest

def natOfDigits (ds : List Char) : Nat :=
  ds.foldl (fun n c => n * 10 + (c.toNat - '0'.toNat)) 0

/-- Parse a JSON number token (grammar `-?(0|[1-9][0-9]*)(.[0-9]+)?([eE][+-]?[0-9]+)?`).
A pure integer token becomes `J.num`; any token with a fraction or exponent
is a Python float, kept symbolically as `J.flt` of its raw token. -/
def pNum (s : List Char) : Option (J × List Char) :=
  let (sign, s1) := match s with
    | '-' :: t => (['-'], t)
    | t => (([] : List Char), t)
  let (ipart, s2) : List Char × List Char := match s1 with
    | '0' :: t => (['0'], t)
    | t =>
        let (ds, r) := t.span Char.isDigit
        (ds, r)
  if ipart = [] then none
  else
    let (fpart, s3) : List Char × List Char := match s2 with
      | '.' :: t =>
          let (ds, r) := t.span Char.isDigit
          if ds = [] then ([], '.' :: t) else ('.' :: ds, r)
      | t => ([], t)
    let (epart, s4) : List Char × List Char := match s3 with
      | 'e' :: '+' :: t =>
          let (ds, r) := t.span Char.isDigit
          if ds = [] then ([], 'e' :: '+' :: t) else ('e' :: '+' :: ds, r)
      | 'e' :: '-' :: t =>
          let (ds, r) := t.span Char.isDigit
          if ds = [] then ([], 'e' :: '-' :: t) else ('e' :: '-' :: ds, r)
      | 'e' :: t =>
          let (ds, r) := t.span Char.isDigit
          if ds = [] then ([], 'e' :: t) else ('e' :: ds, r)
      | 'E' :: '+' :: t =>
          let (ds, r) := t.span Char.isDigit
          if ds = [] then ([], 'E' :: '+' :: t) else ('E' :: '+' :: ds, r)
      | 'E' :: '-' :: t =>
          let (ds, r) := t.span Char.isDigit
          if ds = [] then ([], 'E' :: '-' :: t) else ('E' :: '-' :: ds, r)
      | 'E' :: t =>
          let (ds, r) := t.span Char.isDigit
          if ds = [] then ([], 'E' :: t) else ('E' :: ds, r)
      | t => ([], t)
    if fpart = [] ∧ epart = [] then
      let n : Int := Int.ofNat (natOfDigits ipart)
      some (J.num (if sign = [] then n else -n), s2)
    else
      some (J.flt (String.mk (sign ++ ipart ++ fpart ++ epart)), s4)

/-- Insert a key/value pair into an object under construction, Python dict
semantics: an existing key is overwritten in place, a new key is appended. -/
def objInsert (kvs : List (String × J)) (k : String) (v : J) : List (String × J) :=
  match kvs with
  | [] => [(k, v)]
  | (k1, v1) :: rest =>
      if k1 = k then (k1, v) :: rest else (k1, v1) :: objInsert rest k v

mutual

/-- Parse one JSON value, positioned at its first character (no leading
whitespace).  `fuel` bounds the recursion; every recursive call consumes at
least one character, so `length + 1` fuel always suffices. -/
def pVal : Nat → List Char → Option (J × List Char)
  | 0, _ => none
  | _ + 1, [] => none
  | fuel + 1, c :: rest =>
      match c, rest with
      | '{', r => pObjStart fuel (skipWs r)
      | '[', r =>
          match skipWs r with
          | ']' :: r2 => some (J.arr [], r2)
          | r2 => pElems fuel r2 []
      | '"', r => (fun p => (J.str (String.mk p.1), p.2)) <$> pStr r
      | 't', 'r' :: 'u' :: 'e' :: r => some (J.bool true, r)
      | 'f', 'a' :: 'l' :: 's' :: 'e' :: r => some (J.bool false, r)
      | 'n', 'u' :: 'l' :: 'l' :: r => some (J.null, r)
      | 'N', 'a' :: 'N' :: r => some (J.flt "NaN", r)
      | 'I', 'n' :: 'f' :: 'i' :: 'n' :: 'i' :: 't' :: 'y' :: r =>
          some (J.flt "Infinity", r)
      | '-', 'I' :: 'n' :: 'f' :: 'i' :: 'n' :: 'i' :: 't' :: 'y' :: r =>
          some (J.flt "-Infinity", r)
      | c0, r =>
          if c0 = '-' ∨ c0.isDigit then pNum (c0 :: r) else none

/-- Parse an object body positioned after the opening brace (whitespace
skipped): either an immediate closing brace or a member list. -/
def pObjStart : Nat → List Char → Option (J × List Char)
  | 0, _ => none
  | _ + 1, '}' :: r => some (J.obj [], r)
  | fuel + 1, s => pMembers fuel s []

/-- Parse `"key" : value (, "key" : value)* }` members of an object. -/
def pMembers : Nat → List Char → List (String × J) → Option (J × List Char)
  | 0, _, _ => none
  | fuel + 1, '"' :: r, acc =>
      match pStr r with
      | none => none
      | some (k, r1) =>
          match skipWs r1 with
          | ':' :: r2 =>
              match pVal fuel (skipWs r2) with
              | none => none
              | some (v, r3) =>
                  let acc2 := objInsert acc (String.mk k) v
                  match skipWs r3 with
                  | ',' :: r4 => pMembers fuel (skipWs r4) acc2
                  | '}' :: r4 => some (J.obj acc2, r4)
                  | _ => none
          | _ => none
  | _ + 1, _, _ => none

/-- Parse `value (, value)* ]` elements of a non-empty array. -/
def pElems : Nat → List Char → List J → Option (J × List Char)
  | 0, _, _ => none
  | fuel + 1, s, acc =>
      match pVal fuel s with
      | none => none
      | some (v, r1) =>
          match skipWs r1 with
          | ',' :: r2 => pElems fuel (skipWs r2) (v :: acc)
          | ']' :: r2 => some (J.arr (v :: acc).reverse, r2)
          | _ => none

end

/-- Model of Python `json.loads` on a string (as a character list): parse
exactly one JSON document surrounded by optional whitespace; `none` models
a raised `json.JSONDecodeError`. -/
def json_loads (s : List Char) : Option J :=
  let s1 := skipWs s
  match pVal (s1.length + 1) s1 with
  | some (v, rest) => if skipWs rest = [] then some v else none
  | none => none

/-! ## Python string operations used by extract_json -/

/-- Index of the first occurrence of `sep` in `s` (substring search), the
engine behind Python `in`, `str.split` and `str.find`. -/
def firstOcc (sep s : List Char) : Option Nat :=
  if sep.isPrefixOf s then some 0
  else
    match s with
    | [] => none
    | _ :: t => (firstOcc sep t).map (· + 1)

/-- Python `sep in s` substring containment. -/
def occurs (sep s : List Char) : Bool := (firstOcc sep s).isSome

/-- Fueled worker for Python `str.split(sep)` with a non-empty separator:
split at every non-overlapping leftmost occurrence. -/
def pysplitF : Nat → List Char → List Char → List (List Char)
  | 0, _, s => [s]
  | fuel + 1, sep, s =>
      match firstOcc sep s with
      | none => [s]
      | some i => s.take i :: pysplitF fuel sep (s.drop (i + sep.length))

/-- Python `s.split(sep)` for non-empty `sep`. -/
def pysplit (sep s : List Char) : List (List Char) := pysplitF (s.length + 1) sep s

/-- Whitespace stripped by Python `str.strip()` (the ASCII part). -/
def isPyBlank (c : Char) : Bool :=
  c = ' ' || c = '\t' || c = '\n' || c = '\r' || c = '\x0b' || c = '\x0c'

/-- Python `s.strip()`. -/
def pystrip (s : List Char) : List Char :=
  ((s.dropWhile isPyBlank).reverse.dropWhile isPyBlank).reverse

/-- Python `s.find(c)`: index of first occurrence, or -1. -/
def pyfind (c : Char) (s : List Char) : Int :=
  match s.findIdx? (· = c) with
  | some i => (i : Int)
  | none => -1

/-- Python `s.rfind(c)`: index of last occurrence, or -1. -/
def pyrfind (c : Char) (s : List Char) : Int :=
  match s.reverse.findIdx? (· = c) with
  | some i => ((s.length - 1 - i : Nat) : Int)
  | none => -1

/-- Python slice `s[a:b]` for `0 ≤ a` and `0 ≤ b`. -/
def pyslice (s : List Char) (a b : Int) : List Char :=
  (s.take b.toNat).drop a.toNat

def fenceJson : List Char := "```json".toList

def fence : List Char := "```".toList

/-- The markdown-fence removal step of `extract_json` (lines 292-295 of
anthropic_function.py):
`text.split("` ``json ``")[1].split("` `` ``")[0]` when a json fence is
present, the generic-fence variant otherwise, the text unchanged when no
fence is present. -/
def stripFences (text : List Char) : List Char :=
  if occurs fenceJson text then
    (pysplit fence ((pysplit fenceJson text).getD 1 [])).getD 0 []
  else if occurs fence text then
    (pysplit fence ((pysplit fence text).getD 1 [])).getD 0 []
  else text

/-! ## The fallback response and extract_json -/

/-- Literal translation of `get_fallback_response` (anthropic_function.py
lines 317-350). -/
def get_fallback_response : J :=
  J.obj [
    ("scorecard", J.obj [
      ("overallScore", J.num 50),
      ("verdict", J.str "FAIR"),
      ("categories", J.obj [
        ("cashFlow", J.obj [("score", J.num 50), ("label", J.str "Fair"),
          ("summary", J.str "Analysis could not be completed - please try again.")]),
        ("yield", J.obj [("score", J.num 50), ("label", J.str "Fair"),
          ("summary", J.str "Analysis could not be completed - please try again.")]),
        ("risk", J.obj [("score", J.num 50), ("label", J.str "Moderate"),
          ("summary", J.str "Analysis could not be completed - please try again.")]),
        ("growth", J.obj [("score", J.num 50), ("label", J.str "Fair"),
          ("summary", J.str "Analysis could not be completed - please try again.")]),
        ("location", J.obj [("score", J.num 50), ("label", J.str "Fair"),
          ("summary", J.str "Analysis could not be completed - please try again.")])]),
      ("strengths", J.arr [J.str "Data received successfully",
        J.str "Calculator metrics computed"]),
      ("weaknesses", J.arr [J.str "AI analysis could not be generated",
        J.str "Please retry the analysis"])]),
    ("locationInsights", J.obj [
      ("neighborhoodProfile",
        J.str "Location analysis could not be completed. Please try again."),
      ("rentalDemand", J.obj [("level", J.str "Unknown"), ("trend", J.str "Unknown"),
        ("details", J.str "Analysis unavailable")]),
      ("marketTrends", J.obj [("priceGrowth", J.str "Unknown"),
        ("rentalGrowth", J.str "Unknown")]),
      ("growthProjection", J.obj [("fiveYear", J.str "Unknown"),
        ("tenYear", J.str "Unknown")]),
      ("risks", J.arr [J.str "Analysis incomplete - please retry"])]),
    ("recommendations", J.obj [
      ("actions", J.arr [
        J.obj [("priority", J.num 1), ("title", J.str "Retry Analysis"),
          ("description",
            J.str "The AI analysis did not complete successfully. Please try again."),
          ("impact", J.str "High")]]),
      ("financialProjections", J.obj [
        ("fiveYear", J.obj [("totalEquity", J.num 0), ("cashOnCashReturn", J.num 0)]),
        ("tenYear", J.obj [("totalEquity", J.num 0), ("cashOnCashReturn", J.num 0)]),
        ("twentyYear", J.obj [("totalEquity", J.num 0), ("cashOnCashReturn", J.num 0)])])])]

/-- Literal translation of `extract_json` (anthropic_function.py lines
281-314): try a direct parse, then a parse of the fence-stripped text, then
a parse of the first-brace-to-last-brace slice, and finally fall back.
Each `json.loads` failure (`none`) models a caught `JSONDecodeError`. -/
def extract_json (text : List Char) : J :=
  match json_loads text with
  | some v => v
  | none =>
    let text1 := stripFences text
    match json_loads (pystrip text1) with
    | some v => v
    | none =>
      let start := pyfind '\x7b' text1
      let stop := pyrfind '\x7d' text1 + 1
      if start ≠ -1 ∧ stop > start then
        match json_loads (pyslice text1 start stop) with
        | some v => v
        | none => get_fallback_response
      else get_fallback_response

/-! ## Python runtime operations used by the handlers -/

/-- Kinds of Python exception raised by the modelled code.  Exception
message strings are not reproduced; `PyErr.msg` renders a coarse stand-in
(no claim depends on message text). -/
inductive PyErr where
  | jsonDecodeError : PyErr
  | typeError : PyErr
  | keyError : String → PyErr
  | attributeError : PyErr
  | valueError : PyErr
  | indexError : PyErr
  | serviceError : String → PyErr
deriving DecidableEq, Repr

/-- Model of Python `str(e)` for a caught exception (coarse). -/
def PyErr.msg : PyErr → String
  | .jsonDecodeError => "JSONDecodeError"
  | .typeError => "TypeError"
  | .keyError k => "KeyError: " ++ k
  | .attributeError => "AttributeError"
  | .valueError => "ValueError"
  | .indexError => "IndexError"
  | .serviceError m => m

/-- Whether a Python float token denotes zero (falsy): its mantissa has a
digit and all mantissa digits are 0.  `NaN` and `Infinity` are truthy. -/
def fltTruthy (raw : String) : Bool :=
  let mant := raw.toList.takeWhile (fun c => !(c = 'e' || c = 'E'))
  let ds := mant.filter Char.isDigit
  ds.isEmpty || ds.any (fun c => c ≠ '0')

/-- Python truthiness of a decoded JSON value. -/
def pyTruthy : J → Bool
  | J.null => false
  | J.bool b => b
  | J.num n => n ≠ 0
  | J.flt raw => fltTruthy raw
  | J.str s => s ≠ ""
  | J.arr xs => !xs.isEmpty
  | J.obj kvs => !kvs.isEmpty

/-- Python `d.get(k, default)`: raises `AttributeError` when the receiver
is not a dict. -/
def pyGetD (v : J) (k : String) (dflt : J) : Except PyErr J :=
  match v with
  | J.obj kvs =>
      match kvs.lookup k with
      | some w => .ok w
      | none => .ok dflt
  | _ => .error .attributeError

/-- Python subscript `v[k]` with a string key: `KeyError` when the key is
missing from a dict, `TypeError` when the receiver does not support string
subscripting. -/
def pySub (v : J) (k : String) : Except PyErr J :=
  match v with
  | J.obj kvs =>
      match kvs.lookup k with
      | some w => .ok w
      | none => .error (.keyError k)
  | _ => .error .typeError

/-- Python subscript `v[i]` with a non-negative integer index: list and
string indexing (a string yields a one-character string), `IndexError` when
out of range, `KeyError` when a dict lacks the integer key, `TypeError`
otherwise. -/
def pyIndex (v : J) (i : Nat) : Except PyErr J :=
  match v with
  | J.arr xs =>
      match xs.get? i with
      | some x => .ok x
      | none => .error .indexError
  | J.str s =>
      match s.toList.get? i with
      | some c => .ok (J.str (String.mk [c]))
      | none => .error .indexError
  | J.obj _ => .error (.keyError (toString i))
  | _ => .error .typeError

/-- Python `len(v)`: `TypeError` for values with no length. -/
def pyLen (v : J) : Except PyErr Nat :=
  match v with
  | J.arr xs => .ok xs.length
  | J.str s => .ok s.toList.length
  | J.obj kvs => .ok kvs.length
  | _ => .error .typeError

/-- Python `k in v` for a string `k`: key test on dicts, membership on
lists, substring test on strings, `TypeError` otherwise. -/
def pyInStr (k : String) (v : J) : Except PyErr Bool :=
  match v with
  | J.obj kvs => .ok (kvs.lookup k).isSome
  | J.arr xs => .ok (xs.contains (J.str k))
  | J.str s => .ok (occurs k.toList s.toList)
  | _ => .error .typeError

def squote : Char := Char.ofNat 39

mutual

/-- Coarse model of Python `repr` on decoded JSON values (quoting inside
strings is not re-escaped; floats render as their kept token).  No theorem
depends on the rendering of containers. -/
def pyRepr : J → String
  | J.null => "None"
  | J.bool true => "True"
  | J.bool false => "False"
  | J.num n => toString n
  | J.flt raw => raw
  | J.str s => String.mk (squote :: s.toList ++ [squote])
  | J.arr xs => "[" ++ pyReprList xs ++ "]"
  | J.obj kvs => "\x7b" ++ pyReprKV kvs ++ "\x7d"

def pyReprList : List J → String
  | [] => ""
  | [x] => pyRepr x
  | x :: y :: xs => pyRepr x ++ ", " ++ pyReprList (y :: xs)

def pyReprKV : List (String × J) → String
  | [] => ""
  | [(k, v)] => String.mk (squote :: k.toList ++ [squote]) ++ ": " ++ pyRepr v
  | (k, v) :: y :: xs =>
      String.mk (squote :: k.toList ++ [squote]) ++ ": " ++ pyRepr v ++ ", " ++
        pyReprKV (y :: xs)

end

/-- Python `str(v)` as used when interpolating into an f-string with no
format spec. -/
def pystr : J → String
  | J.str s => s
  | v => pyRepr v

def chunk3 : List Char → List (List Char)
  | [] => []
  | [a] => [[a]]
  | [a, b] => [[a, b]]
  | a :: b :: c :: rest => [a, b, c] :: chunk3 rest

/-- Decimal rendering of a natural number with thousands separators, as
Python format spec `,` produces for non-negative ints. -/
def commaSepNat (n : Nat) : String :=
  String.mk (((chunk3 (toString n).toList.reverse).intersperse [',']).flatten.reverse)

/-- Python format spec `,` applied to a value (`f"{v:,}"`): thousands
separators for ints, `1`/`0` for bools (int subclass), `ValueError` for
strings, `TypeError` for None and containers.  Float rendering is coarse
(kept token). -/
def fmtComma : J → Except PyErr String
  | J.num n => .ok ((if n < 0 then "-" else "") ++ commaSepNat n.natAbs)
  | J.bool true => .ok "1"
  | J.bool false => .ok "0"
  | J.flt raw => .ok raw
  | J.str _ => .error .valueError
  | _ => .error .typeError

/-- Python format spec `,.2f` applied to a value.  Exact for ints and
bools; coarse (kept token) for floats. -/
def fmtCommaFixed2 : J → Except PyErr String
  | J.num n => .ok ((if n < 0 then "-" else "") ++ commaSepNat n.natAbs ++ ".00")
  | J.bool true => .ok "1.00"
  | J.bool false => .ok "0.00"
  | J.flt raw => .ok raw
  | J.str _ => .error .valueError
  | _ => .error .typeError

/-- Python format spec `.2f` applied to a value.  Exact for ints and
bools; coarse (kept token) for floats. -/
def fmtFixed2 : J → Except PyErr String
  | J.num n => .ok (toString n ++ ".00")
  | J.bool true => .ok "1.00"
  | J.bool false => .ok "0.00"
  | J.flt raw => .ok raw
  | J.str _ => .error .valueError
  | _ => .error .typeError

/-! ## build_analysis_prompt (anthropic_function.py lines 129-278) -/

/-- The conditional-expression idiom used for the optional boolean fields:
`'Yes' if pd.get(k) else 'No' if pd.get(k) is False else 'Not specified'`.
Truthy values render Yes, the exact value `False` renders No, anything
else (absent key gives `None`) renders the placeholder. -/
def ynns (x : J) : String :=
  if pyTruthy x then "Yes"
  else if x = J.bool false then "No"
  else "Not specified"

/-- The `property_details_section` local of `build_analysis_prompt`
(lines 138-168): empty when `propertyDetails` is falsy, otherwise the
rendered section, each optional field degrading to a placeholder. -/
def property_details_section (pd : J) : Except PyErr String := do
  if pyTruthy pd then
    let pn := pystr (← pyGetD pd "propertyName" (J.str "Not specified"))
    let cn := pystr (← pyGetD pd "complexName" (J.str "Not specified"))
    let bd := pystr (← pyGetD pd "bedrooms" (J.str "Not specified"))
    let ba := pystr (← pyGetD pd "bathrooms" (J.str "Not specified"))
    let sm := pystr (← pyGetD pd "squareMeters" (J.str "Not specified"))
    let fl := pystr (← pyGetD pd "floorLevel" (J.str "Not specified"))
    let pb := pystr (← pyGetD pd "parkingBays" (J.str "Not specified"))
    let bage := pystr (← pyGetD pd "buildingAge" (J.str "Not specified"))
    let lsr := pystr (← pyGetD pd "loadSheddingReady" (J.str "Not specified"))
    let fa := ynns (← pyGetD pd "fibreAvailable" J.null)
    let wb := ynns (← pyGetD pd "waterBackup" J.null)
    let s24 := ynns (← pyGetD pd "security24hr" J.null)
    let act := pystr (← pyGetD pd "accessControlType" (J.str "Not specified"))
    let cctv := ynns (← pyGetD pd "cctvCoverage" J.null)
    let rfa := ynns (← pyGetD pd "reserveFundAdequate" J.null)
    let slh := ynns (← pyGetD pd "specialLevyHistory" J.null)
    let sta := ynns (← pyGetD pd "shortTermAllowed" J.null)
    let pf := ynns (← pyGetD pd "petFriendly" J.null)
    let furn := pystr (← pyGetD pd "furnished" (J.str "Not specified"))
    .ok ("\n## Property Details\n- Property Name: " ++ pn ++
      "\n- Complex Name: " ++ cn ++
      "\n- Bedrooms: " ++ bd ++
      "\n- Bathrooms: " ++ ba ++
      "\n- Square Meters: " ++ sm ++
      "\n- Floor Level: " ++ fl ++
      "\n- Parking Bays: " ++ pb ++
      "\n- Building Age: " ++ bage ++ " years" ++
      "\n\n## SA Infrastructure" ++
      "\n- Load Shedding Ready: " ++ lsr ++
      "\n- Fibre Available: " ++ fa ++
      "\n- Water Backup: " ++ wb ++
      "\n\n## Security & Building" ++
      "\n- 24hr Security: " ++ s24 ++
      "\n- Access Control: " ++ act ++
      "\n- CCTV Coverage: " ++ cctv ++
      "\n\n## Body Corporate" ++
      "\n- Reserve Fund Adequate: " ++ rfa ++
      "\n- Special Levy History: " ++ slh ++
      "\n\n## Rental Strategy" ++
      "\n- Short-term Allowed: " ++ sta ++
      "\n- Pet Friendly: " ++ pf ++
      "\n- Furnished Status: " ++ furn)
  else .ok ""

/-- Rendering of one projection entry once fetched:
`.get('yearlyCashflow', 0)` under the `,.2f` format. -/
def projLineValue (cur label : String) (p : J) : Except PyErr String := do
  let v ← pyGetD p "yearlyCashflow" (J.num 0)
  let s ← fmtCommaFixed2 v
  .ok ("\n- Year " ++ label ++ " Cashflow: " ++ cur ++ " " ++ s)

/-- One cashflow line of the 20-year projection summary:
`- Year L Cashflow: {data[currency]} {projections[i].get(yearlyCashflow, 0):,.2f}`. -/
def projLine (data projections : J) (label : String) (i : Nat) :
    Except PyErr String := do
  let cur := pystr (← pySub data "currency")
  let p ← pyIndex projections i
  projLineValue cur label p

/-- The then-branch of the projection summary guard (lines 174-179): the
header plus the year 1/5/10/20 cashflow lines (indices 0, 4, 9, 19). -/
def projection_block (data projections : J) : Except PyErr String := do
  let l1 ← projLine data projections "1" 0
  let l5 ← projLine data projections "5" 4
  let l10 ← projLine data projections "10" 9
  let l20 ← projLine data projections "20" 19
  .ok ("\n## 20-Year Projection Summary" ++ l1 ++ l5 ++ l10 ++ l20)

/-- The `projection_summary` local of `build_analysis_prompt` (lines
170-179): empty unless `calculatedMetrics.yearlyProjections` has at least
20 entries, in which case the year 1/5/10/20 cashflows are rendered. -/
def projection_summary (data metrics : J) : Except PyErr String := do
  let projections ← pyGetD metrics "yearlyProjections" (J.arr [])
  let n ← pyLen projections
  if n ≥ 20 then projection_block data projections
  else .ok ""

/-- The literal example-schema block of the prompt (source lines 240-273,
with the doubled braces of the f-string rendered as single braces). -/
def promptSchemaBlock : String :=
  "\x7b\n  \"scorecard\": \x7b\n    \"overallScore\": <0-100 integer>,\n    \"verdict\": \"<EXCELLENT|GOOD|FAIR|POOR|AVOID>\",\n    \"categories\": \x7b\n      \"cashFlow\": \x7b\"score\": <0-100>, \"label\": \"<Excellent|Good|Fair|Poor>\", \"summary\": \"<1 sentence>\"\x7d,\n      \"yield\": \x7b\"score\": <0-100>, \"label\": \"<Excellent|Good|Fair|Poor>\", \"summary\": \"<1 sentence>\"\x7d,\n      \"risk\": \x7b\"score\": <0-100>, \"label\": \"<Low|Moderate|High|Very High>\", \"summary\": \"<1 sentence>\"\x7d,\n      \"growth\": \x7b\"score\": <0-100>, \"label\": \"<Excellent|Good|Fair|Poor>\", \"summary\": \"<1 sentence>\"\x7d,\n      \"location\": \x7b\"score\": <0-100>, \"label\": \"<Excellent|Good|Fair|Poor>\", \"summary\": \"<1 sentence>\"\x7d\n    \x7d,\n    \"strengths\": [\"<strength 1>\", \"<strength 2>\", \"<strength 3>\"],\n    \"weaknesses\": [\"<weakness 1>\", \"<weakness 2>\", \"<weakness 3>\"]\n  \x7d,\n  \"locationInsights\": \x7b\n    \"neighborhoodProfile\": \"<2-3 sentences about the area>\",\n    \"rentalDemand\": \x7b\"level\": \"<High|Medium|Low>\", \"trend\": \"<Growing|Stable|Declining>\", \"details\": \"<1 sentence>\"\x7d,\n    \"marketTrends\": \x7b\"priceGrowth\": \"<X-Y% annually>\", \"rentalGrowth\": \"<X-Y% annually>\"\x7d,\n    \"growthProjection\": \x7b\"fiveYear\": \"<X-Y% appreciation>\", \"tenYear\": \"<X-Y% appreciation>\"\x7d,\n    \"risks\": [\"<risk 1>\", \"<risk 2>\"]\n  \x7d,\n  \"recommendations\": \x7b\n    \"actions\": [\n      \x7b\"priority\": 1, \"title\": \"<action title>\", \"description\": \"<1-2 sentences>\", \"impact\": \"<High|Medium|Low>\"\x7d,\n      \x7b\"priority\": 2, \"title\": \"<action title>\", \"description\": \"<1-2 sentences>\", \"impact\": \"<High|Medium|Low>\"\x7d,\n      \x7b\"priority\": 3, \"title\": \"<action title>\", \"description\": \"<1-2 sentences>\", \"impact\": \"<High|Medium|Low>\"\x7d\n    ],\n    \"financialProjections\": \x7b\n      \"fiveYear\": \x7b\"totalEquity\": <number>, \"cashOnCashReturn\": <decimal>\x7d,\n      \"tenYear\": \x7b\"totalEquity\": <number>, \"cashOnCashReturn\": <decimal>\x7d,\n      \"twentyYear\": \x7b\"totalEquity\": <number>, \"cashOnCashReturn\": <decimal>\x7d\n    \x7d\n  \x7d\n\x7d"

/-- The final f-string of `build_analysis_prompt` (lines 181-278), given
the already-computed section locals; field expressions are evaluated in
template order. -/
def build_prompt_body (data loc metrics : J) (pdSection projSummary : String) :
    Except PyErr String := do
  let cur := pystr (← pySub data "currency")
  let pData ← pySub data "propertyData"
  let price ← fmtComma (← pySub pData "price")
  let deposit ← fmtComma (← pySub pData "deposit")
  let loanAmount ← fmtComma (← pySub pData "loanAmount")
  let ir := pystr (← pySub pData "interestRate")
  let lt := pystr (← pySub pData "loanTermYears")
  let suburb := pystr (← pyGetD loc "suburb" (J.str "Not specified"))
  let city := pystr (← pyGetD loc "city" (J.str "Not specified"))
  let province := pystr (← pyGetD loc "province" (J.str "Not specified"))
  let country := pystr (← pyGetD loc "country" (J.str "South Africa"))
  let iData ← pySub data "incomeData"
  let mr ← fmtComma (← pySub iData "monthlyRent")
  let ari := pystr (← pySub iData "annualRentIncrease")
  let vm := pystr (← pySub iData "vacancyMonths")
  let eData ← pySub data "expenseData"
  let rates := pystr (← pySub eData "monthlyRates")
  let levies := pystr (← pySub eData "monthlyLevies")
  let ins := pystr (← pySub eData "monthlyInsurance")
  let we := pystr (← pySub eData "monthlyWaterElec")
  let wifi := pystr (← pySub eData "monthlyWifi")
  let sec := pystr (← pySub eData "monthlySecurity")
  let mp := pystr (← pySub eData "maintenancePercent")
  let cp := pystr (← pySub eData "commissionPercent")
  let clp := pystr (← pySub eData "cleaningPercent")
  let aei := pystr (← pySub eData "annualExpenseIncrease")
  let mbp ← fmtCommaFixed2 (← pyGetD metrics "monthlyBondPayment" (J.num 0))
  let y1m ← fmtCommaFixed2 (← pyGetD metrics "year1MonthlyCashflow" (J.num 0))
  let y1y ← fmtCommaFixed2 (← pyGetD metrics "year1YearlyCashflow" (J.num 0))
  let bey := pystr (← pyGetD metrics "breakEvenYear" (J.str "N/A"))
  let rdbe ← fmtCommaFixed2 (← pyGetD metrics "requiredDepositForBreakEven" (J.num 0))
  let gy ← fmtFixed2 (← pyGetD metrics "grossYield" (J.num 0))
  let ny ← fmtFixed2 (← pyGetD metrics "netYield" (J.num 0))
  let suburb2 := pystr (← pyGetD loc "suburb" (J.str "the area"))
  let city2 := pystr (← pyGetD loc "city" (J.str "South Africa"))
  .ok ("You are a JSON-only API. You output ONLY valid JSON with no other text.\n\nTASK: Analyze this South African property investment and return a JSON response.\n\nCRITICAL RULES:\n1. Output ONLY the JSON object - no explanations, no markdown, no text before or after\n2. Use the EXACT structure shown at the end of this prompt\n3. All numbers must be raw (use 1450000 not 1,450,000)\n4. Start your response with \x7b and end with \x7d\n\n## Financial Data\n- Purchase Price: " ++
    cur ++ " " ++ price ++
    "\n- Deposit: " ++ cur ++ " " ++ deposit ++
    "\n- Loan Amount: " ++ cur ++ " " ++ loanAmount ++
    "\n- Interest Rate: " ++ ir ++ "%" ++
    "\n- Loan Term: " ++ lt ++ " years\n" ++
    pdSection ++
    "\n\n## Location\n- Suburb: " ++ suburb ++
    "\n- City: " ++ city ++
    "\n- Province: " ++ province ++
    "\n- Country: " ++ country ++
    "\n\n## Income Data\n- Monthly Rent: " ++ cur ++ " " ++ mr ++
    "\n- Annual Rent Increase: " ++ ari ++ "%" ++
    "\n- Vacancy: " ++ vm ++ " months/year" ++
    "\n\n## Monthly Expenses\n- Rates: " ++ cur ++ " " ++ rates ++
    "\n- Levies: " ++ cur ++ " " ++ levies ++
    "\n- Insurance: " ++ cur ++ " " ++ ins ++
    "\n- Water/Electricity: " ++ cur ++ " " ++ we ++
    "\n- WiFi: " ++ cur ++ " " ++ wifi ++
    "\n- Security: " ++ cur ++ " " ++ sec ++
    "\n- Maintenance: " ++ mp ++ "% of rent" ++
    "\n- Agent Commission: " ++ cp ++ "% of rent" ++
    "\n- Cleaning: " ++ clp ++ "% of rent" ++
    "\n- Annual Expense Increase: " ++ aei ++ "%" ++
    "\n\n## Pre-Calculated Metrics\n- Monthly Bond Payment: " ++ cur ++ " " ++ mbp ++
    "\n- Year 1 Monthly Cashflow: " ++ cur ++ " " ++ y1m ++
    "\n- Year 1 Yearly Cashflow: " ++ cur ++ " " ++ y1y ++
    "\n- Break-even Year: " ++ bey ++
    "\n- Required Deposit for Break-even: " ++ cur ++ " " ++ rdbe ++
    "\n- Gross Yield: " ++ gy ++ "%" ++
    "\n- Net Yield: " ++ ny ++ "%\n" ++
    projSummary ++
    "\n\nConsider these SA-specific factors in your analysis:\n- Load shedding readiness significantly impacts tenant demand and rental premiums\n- Fibre availability is increasingly important for remote workers\n- Security features are crucial for SA rental properties\n- Body corporate health affects long-term investment viability\n- Short-term rental allowance can significantly impact yield potential\n\nReturn ONLY valid JSON (no markdown, no explanation) in this EXACT format:\n" ++
    promptSchemaBlock ++
    "\n\nScoring guidelines:\n- overallScore: 80+ = EXCELLENT, 65-79 = GOOD, 50-64 = FAIR, 35-49 = POOR, <35 = AVOID\n- Consider SA market conditions, current interest rates (" ++
    ir ++
    "%), and location-specific factors\n- Be realistic about " ++
    suburb2 ++
    "\x27s rental market in " ++
    city2)

/-- Literal translation of `build_analysis_prompt` (lines 129-278).
Nested required fields are accessed by subscript and propagate a
`KeyError`-like failure; optional fields degrade to defaults via `.get`;
the section locals are computed first, then the main template is rendered
by `build_prompt_body`. -/
def build_analysis_prompt (data : J) : Except PyErr String := do
  let pd ← pyGetD data "propertyDetails" (J.obj [])
  let loc ← pyGetD data "location" (J.obj [])
  let metrics ← pyGetD data "calculatedMetrics" (J.obj [])
  let pdSection ← property_details_section pd
  let projSummary ← projection_summary data metrics
  build_prompt_body data loc metrics pdSection projSummary

/-! ## The analysis-flow handler (anthropic_function.py lambda_handler) -/

/-- An HTTP-style Lambda response.  The body dict handed to `json.dumps`
is kept as a `J` value; the constant CORS headers of the source are not
modelled. -/
structure HttpResp where
  statusCode : Nat
  body : J
deriving DecidableEq, Repr

def model_id : String := "anthropic.claude-3-haiku-20240307-v1:0"

/-- Input parsing of the analysis handler (lines 29-35), which happens
BEFORE the try block: a string body is `json.loads`-decoded (a decode
failure is an uncaught exception here), any other body is used as is,
defaulting to an empty dict.  The second `isinstance` re-check of the
source is unreachable and kept for fidelity. -/
def parse_event_body (event : J) : Except PyErr J := do
  let b ← (match event with
    | J.obj kvs => Except.ok (kvs.lookup "body")
    | _ => Except.error PyErr.attributeError)
  match b with
  | some (J.str s) =>
      (match json_loads s.toList with
        | some v => .ok v
        | none => .error .jsonDecodeError)
  | _ =>
      let d := b.getD (J.obj [])
      match d with
      | J.str s =>
          (match json_loads s.toList with
            | some v => .ok v
            | none => .error .jsonDecodeError)
      | _ => .ok d

/-- The part of the analysis handler that runs before its try block
(lines 29-37): parse the body and read `requestId` (default `"unknown"`).
Any failure here is an exception escaping `lambda_handler`. -/
def anthropic_pre (event : J) : Except PyErr (J × J) := do
  let data ← parse_event_body event
  let rid ← pyGetD data "requestId" (J.str "unknown")
  .ok (data, rid)

/-- The body of the analysis handler try block (lines 39-109).  The
external Bedrock call (invoke_model + body read + json.loads) is supplied
as `svc`: either a raised service error or the decoded response body.
`ptime` stands for the measured processing time.  Note that `extract_json`
re-raises a `TypeError` when the extracted `text` field is not a string
(its except clause only catches JSONDecodeError). -/
def anthropic_try (data rid : J) (svc : Except String J) (ptime : Nat) :
    Except PyErr HttpResp := do
  let _prompt ← build_analysis_prompt data
  let response_body ← (match svc with
    | .ok rb => Except.ok rb
    | .error m => Except.error (PyErr.serviceError m))
  let content ← pySub response_body "content"
  let c0 ← pyIndex content 0
  let aiText ← pySub c0 "text"
  let analysis0 ← (match aiText with
    | J.str s => Except.ok (extract_json s.toList)
    | _ => Except.error PyErr.typeError)
  let sc ← pyInStr "scorecard" analysis0
  let analysis := if sc then analysis0 else get_fallback_response
  let usage ← pyGetD response_body "usage" (J.obj [])
  let inTok ← pyGetD usage "input_tokens" (J.num 0)
  let outTok ← pyGetD usage "output_tokens" (J.num 0)
  .ok { statusCode := 200,
        body := J.obj [
          ("success", J.bool true),
          ("requestId", rid),
          ("analysis", analysis),
          ("metadata", J.obj [
            ("modelUsed", J.str model_id),
            ("processingTimeMs", J.num ptime),
            ("tokensUsed", J.obj [("input", inTok), ("output", outTok)])])] }

/-- The 500 error response of the analysis handler catch-all branch
(lines 111-126). -/
def anthropic_error_response (rid : J) (e : PyErr) : HttpResp :=
  { statusCode := 500,
    body := J.obj [
      ("success", J.bool false),
      ("requestId", rid),
      ("error", J.str e.msg),
      ("analysis", get_fallback_response)] }

/-- The analysis-flow `lambda_handler` (anthropic_function.py lines
25-126).  A resulting `Except.error` is an exception escaping the handler
(possible only in the pre-try input parsing); inside the try block every
failure is converted to the 500 response. -/
def lambda_handler (event : J) (svc : Except String J) (ptime : Nat) :
    Except PyErr HttpResp := do
  let (data, rid) ← anthropic_pre event
  .ok (match anthropic_try data rid svc ptime with
    | .ok r => r
    | .error e => anthropic_error_response rid e)

/-! ## The record-flow handler (lambda_function.py lambda_handler) -/

/-- The input field names copied from `body[inputs]` into the stored
item (lambda_function.py lines 26-41), in source order. -/
def recordFieldNames : List String :=
  ["propertyPrice", "deposit", "initialRentalIncome", "annualRentIncrease",
   "vacancyMonths", "monthlyRates", "monthlyLevies", "monthlyInsurance",
   "maintenancePercent", "commissionPercent", "cleaningPercent",
   "monthlyWaterElec", "monthlyWifi", "monthlySecurity",
   "annualExpenseIncrease", "loanTerm"]

/-- The try-block body of the record handler (lambda_function.py lines
16-82): `json.loads(event[body])` (a non-string body raises TypeError,
caught below), read `body[inputs]`, `.get` each field (absent fields give
None), build the item with the generated id and timestamp, and put it to
the store.  The store write is supplied as `put`; a store failure is a
raised exception. -/
def record_try (event : J) (analysisId currentTime : String)
    (put : J → Except String Unit) : Except PyErr HttpResp := do
  let bodyRaw ← pySub event "body"
  let body ← (match bodyRaw with
    | J.str s =>
        (match json_loads s.toList with
          | some v => Except.ok v
          | none => Except.error PyErr.jsonDecodeError)
    | _ => Except.error PyErr.typeError)
  let inputs ← pySub body "inputs"
  let fields ← recordFieldNames.mapM (fun k => do
    let v ← pyGetD inputs k J.null
    pure (k, v))
  let item := J.obj ([("id", J.str analysisId), ("createdAt", J.str currentTime)] ++ fields)
  match put item with
  | .ok _ =>
      .ok { statusCode := 200, body := J.obj [("message", J.str "Success")] }
  | .error m => .error (.serviceError m)

/-- The record-flow `lambda_handler` (lambda_function.py lines 14-97):
the whole body is inside the try, so the handler is total — every failure
becomes the 500 response. -/
def record_lambda_handler (event : J) (analysisId currentTime : String)
    (put : J → Except String Unit) : HttpResp :=
  match record_try event analysisId currentTime put with
  | .ok r => r
  | .error e =>
      { statusCode := 500,
        body := J.obj [
          ("message", J.str "Error storing analysis"),
          ("error", J.str e.msg)] }

/-! ## Observers used to state the claims -/

/-- Key access on an object value (statement-side observer). -/
def jget : J → String → Option J
  | J.obj kvs, k => kvs.lookup k
  | _, _ => none

/-- Key access through an optional value. -/
def jgetO (o : Option J) (k : String) : Option J := o.bind (fun v => jget v k)

/-- Whether a value is an object carrying the given top-level key. -/
def hasKey (v : J) (k : String) : Bool := (jget v k).isSome

/-- Number of entries of an optional array or object value. -/
def jsize : Option J → Option Nat
  | some (J.arr xs) => some xs.length
  | some (J.obj kvs) => some kvs.length
  | _ => none

/-- First element of an optional array value. -/
def jfirst : Option J → Option J
  | some (J.arr (x :: _)) => some x
  | _ => none

/-- Substring containment on strings (Python `pat in s`). -/
def containsSub (pat s : String) : Bool := occurs pat.toList s.toList

/-- A well-formed Analysis Request with integer financial fields and the
given propertyDetails and calculatedMetrics groups; used to quantify the
prompt-builder claims over the required data. -/
def canonicalRequest (cur : String)
    (price dep loan ir lt mr ari vm rates levies ins we wifi sec mp cp clp aei : Int)
    (pd metrics : J) : J :=
  J.obj [
    ("currency", J.str cur),
    ("propertyData", J.obj [("price", J.num price), ("deposit", J.num dep),
      ("loanAmount", J.num loan), ("interestRate", J.num ir),
      ("loanTermYears", J.num lt)]),
    ("incomeData", J.obj [("monthlyRent", J.num mr),
      ("annualRentIncrease", J.num ari), ("vacancyMonths", J.num vm)]),
    ("expenseData", J.obj [("monthlyRates", J.num rates),
      ("monthlyLevies", J.num levies), ("monthlyInsurance", J.num ins),
      ("monthlyWaterElec", J.num we), ("monthlyWifi", J.num wifi),
      ("monthlySecurity", J.num sec), ("maintenancePercent", J.num mp),
      ("commissionPercent", J.num cp), ("cleaningPercent", J.num clp),
      ("annualExpenseIncrease", J.num aei)]),
    ("propertyDetails", pd),
    ("calculatedMetrics", metrics)]

/-- A propertyDetails group carrying every optional field except
`fibreAvailable`, `waterBackup` and `security24hr`, with arbitrary values. -/
def c9pd (pn cn bd ba sm fl pb bage lsr act cctv rfa slh sta pf furn : J) : J :=
  J.obj [("propertyName", pn), ("complexName", cn), ("bedrooms", bd),
    ("bathrooms", ba), ("squareMeters", sm), ("floorLevel", fl),
    ("parkingBays", pb), ("buildingAge", bage), ("loadSheddingReady", lsr),
    ("accessControlType", act), ("cctvCoverage", cctv),
    ("reserveFundAdequate", rfa), ("specialLevyHistory", slh),
    ("shortTermAllowed", sta), ("petFriendly", pf), ("furnished", furn)]

/-- The rendered text of one projection cashflow line for an integer
cashflow value. -/
def projLineStr (curs label : String) (c : Int) : String :=
  "\n- Year " ++ label ++ " Cashflow: " ++ curs ++ " " ++
    ((if c < 0 then "-" else "") ++ commaSepNat c.natAbs ++ ".00")

/-- The canonical C10 input: empty propertyDetails, calculatedMetrics
holding only the yearly projection list. -/
def c10data (cur : String)
    (price dep loan ir lt mr ari vm rates levies ins we wifi sec mp cp clp aei : Int)
    (projs : List J) : J :=
  canonicalRequest cur price dep loan ir lt mr ari vm rates levies ins we wifi
    sec mp cp clp aei (J.obj []) (J.obj [("yearlyProjections", J.arr projs)])

/-! ## Helper lemmas -/

theorem extract_json_direct {text : List Char} {v : J}
    (h : json_loads text = some v) : extract_json text = v := by
  unfold extract_json
  rw [h]

theorem extract_json_stripped {text : List Char} {v : J}
    (h1 : json_loads text = none)
    (h2 : json_loads (pystrip (stripFences text)) = some v) :
    extract_json text = v := by
  unfold extract_json
  simp only [h1, h2]

theorem extract_json_brace {text : List Char} {v : J}
    (h1 : json_loads text = none)
    (h2 : json_loads (pystrip (stripFences text)) = none)
    (h3 : pyfind '\x7b' (stripFences text) ≠ -1)
    (h4 : pyrfind '\x7d' (stripFences text) + 1 > pyfind '\x7b' (stripFences text))
    (h5 : json_loads (pyslice (stripFences text) (pyfind '\x7b' (stripFences text))
            (pyrfind '\x7d' (stripFences text) + 1)) = some v) :
    extract_json text = v := by
  unfold extract_json
  simp only [h1, h2]
  rw [if_pos (And.intro h3 h4)]
  simp only [h5]

theorem extract_json_fallback_no_brace {text : List Char}
    (h1 : json_loads text = none)
    (h2 : json_loads (pystrip (stripFences text)) = none)
    (h3 : pyfind '\x7b' (stripFences text) = -1) :
    extract_json text = get_fallback_response := by
  unfold extract_json
  simp only [h1, h2]
  have : ¬ (pyfind '\x7b' (stripFences text) ≠ -1 ∧
      pyrfind '\x7d' (stripFences text) + 1 > pyfind '\x7b' (stripFences text)) := by
    intro hc
    exact hc.1 h3
  rw [if_neg this]

theorem pysplitF_sublist (fuel : Nat) :
    ∀ (sep s p : List Char), p ∈ pysplitF fuel sep s → List.Sublist p s := by
  induction fuel with
  | zero =>
      intro sep s p hp
      simp only [pysplitF, List.mem_singleton] at hp
      exact hp ▸ List.Sublist.refl s
  | succ n ih =>
      intro sep s p hp
      simp only [pysplitF] at hp
      cases hocc : firstOcc sep s with
      | none =>
          rw [hocc] at hp
          simp only [List.mem_singleton] at hp
          exact hp ▸ List.Sublist.refl s
      | some i =>
          rw [hocc] at hp
          rcases List.mem_cons.mp hp with h | h
          · exact h ▸ List.take_sublist i s
          · exact (ih sep _ p h).trans (List.drop_sublist _ s)

theorem not_mem_pysplit_getD {c : Char} {sep s : List Char}
    (h : c ∉ s) (i : Nat) : c ∉ (pysplit sep s).getD i [] := by
  have hd : (pysplit sep s).getD i [] = ((pysplit sep s).get? i).getD [] := rfl
  rw [hd]
  cases hg : (pysplit sep s).get? i with
  | none => simp
  | some p =>
      simp only [Option.getD_some]
      intro hmem
      exact h ((pysplitF_sublist _ sep s p (List.get?_mem hg)).subset hmem)

theorem not_mem_stripFences {c : Char} {s : List Char}
    (h : c ∉ s) : c ∉ stripFences s := by
  unfold stripFences
  split
  · exact not_mem_pysplit_getD (not_mem_pysplit_getD h 1) 0
  · split
    · exact not_mem_pysplit_getD (not_mem_pysplit_getD h 1) 0
    · exact h

theorem pyfind_eq_neg_one {c : Char} {s : List Char} (h : c ∉ s) :
    pyfind c s = -1 := by
  unfold pyfind
  have : s.findIdx? (· = c) = none := by
    rw [List.findIdx?_eq_none_iff]
    intro x hx
    simp only [decide_eq_false_iff_not]
    intro he
    exact h (he ▸ hx)
  rw [this]

theorem occurs_of_infix {pat s : List Char} (h : pat <:+: s) :
    occurs pat s = true := by
  rcases h with ⟨pre, post, hpre⟩
  subst hpre
  induction pre with
  | nil =>
      unfold occurs firstOcc
      rw [if_pos]
      · rfl
      · exact List.isPrefixOf_iff_prefix.mpr (List.prefix_append pat post)
  | cons a t ih =>
      unfold occurs firstOcc
      split
      · rfl
      · simpa [occurs] using ih

theorem except_bind_ok {ε α β : Type} (a : α) (f : α → Except ε β) :
    ((Except.ok a : Except ε α) >>= f) = f a := rfl

theorem pyGetD_obj (kvs : List (String × J)) (k : String) (d : J) :
    pyGetD (J.obj kvs) k d = Except.ok ((kvs.lookup k).getD d) := by
  cases h : kvs.lookup k with
  | none => simp [pyGetD, h]
  | some w => simp [pyGetD, h]

theorem pyTruthy_obj_of_ne (kvs : List (String × J)) (h : kvs ≠ []) :
    pyTruthy (J.obj kvs) = true := by
  unfold pyTruthy
  simpa using h

theorem occurs_append_left (t : List Char) {pat s : List Char}
    (h : occurs pat s = true) : occurs pat (t ++ s) = true := by
  induction t with
  | nil => exact h
  | cons a u ih =>
      show occurs pat (a :: (u ++ s)) = true
      unfold occurs firstOcc
      split
      · rfl
      · simpa [occurs] using ih

theorem occurs_head (a rest pat : List Char) (h : pat = a) :
    occurs pat (a ++ rest) = true := by
  apply occurs_of_infix
  exact ⟨[], rest, by simp [h]⟩

theorem occurs_two_head (a b rest pat : List Char) (h : pat = a ++ b) :
    occurs pat (a ++ (b ++ rest)) = true := by
  apply occurs_of_infix
  exact ⟨[], rest, by simp [h]⟩

theorem infix_of_occurs {pat s : List Char} (h : occurs pat s = true) : pat <:+: s := by
  induction s with
  | nil =>
      unfold occurs firstOcc at h
      split at h
      · next hp => exact (List.isPrefixOf_iff_prefix.mp hp).isInfix
      · simp at h
  | cons a t ih =>
      unfold occurs firstOcc at h
      split at h
      · next hp => exact (List.isPrefixOf_iff_prefix.mp hp).isInfix
      · next hp =>
          have ht : occurs pat t = true := by simpa [occurs] using h
          exact ((ih ht).trans ⟨[a], [], by simp⟩)

theorem occurs_append_right (t : List Char) {pat s : List Char}
    (h : occurs pat s = true) : occurs pat (s ++ t) = true :=
  occurs_of_infix ((infix_of_occurs h).trans ⟨[], t, by simp⟩)

/-- The property-details section is empty for an empty details group. -/
theorem pd_section_empty : property_details_section (J.obj []) = Except.ok "" := rfl

/-! ## Claims -/

/-- C1, counterexample: on the input text consisting of an empty JSON
object, `extract_json` parses it directly and returns the empty object —
which lacks a `scorecard` key and is not the fallback — so the Normalizer
itself does not guarantee a `scorecard` key and does not substitute the
fallback for a parsed object missing the key. -/
theorem c1_counterexample :
    json_loads ("\x7b\x7d".toList) = some (J.obj []) ∧
    extract_json ("\x7b\x7d".toList) = J.obj [] ∧
    hasKey (J.obj []) "scorecard" = false ∧
    J.obj [] ≠ get_fallback_response := by decide

/-- C1, amended: when the text parses directly as JSON, `extract_json`
returns the parsed value unchanged — performing no `scorecard` check and
never substituting the fallback for it; the missing-`scorecard` fallback
substitution happens later inside `lambda_handler`. -/
theorem c1_amended_theorem (text : List Char) (v : J)
    (h : json_loads text = some v) :
    extract_json text = v ∧
    (hasKey v "scorecard" = false → extract_json text ≠ get_fallback_response) := by
  have he := extract_json_direct h
  refine ⟨he, fun hk hc => ?_⟩
  rw [he] at hc
  subst hc
  exact absurd hk (by decide)

/-- Witness for C1 at the concrete input text of an empty JSON object. -/
theorem c1_amended_witness :
    extract_json ("\x7b\x7d".toList) = J.obj [] ∧
    (hasKey (J.obj []) "scorecard" = false →
      extract_json ("\x7b\x7d".toList) ≠ get_fallback_response) :=
  c1_amended_theorem ("\x7b\x7d".toList) (J.obj []) (by decide)

/-- C2, counterexample: the fallback Analysis Result has two strengths,
two weaknesses and a single recommended action — not three of each as
claimed. -/
theorem c2_counterexample :
    jsize (jgetO (jget get_fallback_response "scorecard") "strengths") = some 2 ∧
    jsize (jgetO (jget get_fallback_response "scorecard") "weaknesses") = some 2 ∧
    jsize (jgetO (jget get_fallback_response "recommendations") "actions") = some 1 := by
  decide

/-- C2, amended: the fallback Analysis Result carries the three top-level
sections with overall score 50, verdict FAIR and five category sub-scores,
but its scorecard contains exactly TWO strengths and TWO weaknesses and
its recommendations exactly ONE ranked action (priority 1). -/
theorem c2_amended_theorem :
    hasKey get_fallback_response "scorecard" = true ∧
    hasKey get_fallback_response "locationInsights" = true ∧
    hasKey get_fallback_response "recommendations" = true ∧
    jgetO (jget get_fallback_response "scorecard") "overallScore" = some (J.num 50) ∧
    jgetO (jget get_fallback_response "scorecard") "verdict" = some (J.str "FAIR") ∧
    jsize (jgetO (jget get_fallback_response "scorecard") "categories") = some 5 ∧
    jsize (jgetO (jget get_fallback_response "scorecard") "strengths") = some 2 ∧
    jsize (jgetO (jget get_fallback_response "scorecard") "weaknesses") = some 2 ∧
    jsize (jgetO (jget get_fallback_response "recommendations") "actions") = some 1 ∧
    jgetO (jfirst (jgetO (jget get_fallback_response "recommendations") "actions"))
        "priority" = some (J.num 1) := by
  decide

/-- C3: when the direct parse and the fence-stripped parse both fail, and
the first open brace of the (possibly fence-stripped) text precedes its
last close brace, `extract_json` parses the inclusive substring spanning
them — the outermost first-to-last span — and returns the parsed value on
success. -/
theorem c3_theorem (text : List Char) (v : J)
    (h1 : json_loads text = none)
    (h2 : json_loads (pystrip (stripFences text)) = none)
    (h3 : pyfind '\x7b' (stripFences text) ≠ -1)
    (h4 : pyrfind '\x7d' (stripFences text) + 1 > pyfind '\x7b' (stripFences text))
    (h5 : json_loads (pyslice (stripFences text) (pyfind '\x7b' (stripFences text))
            (pyrfind '\x7d' (stripFences text) + 1)) = some v) :
    extract_json text = v :=
  extract_json_brace h1 h2 h3 h4 h5

/-- Witness for C3 at a text with nested brace pairs: the outermost span
(first open brace to last close brace) is parsed. -/
theorem c3_witness :
    extract_json ("Note: \x7b\"scorecard\":\x7b\"overallScore\":70\x7d\x7d thanks".toList) =
      J.obj [("scorecard", J.obj [("overallScore", J.num 70)])] :=
  c3_theorem ("Note: \x7b\"scorecard\":\x7b\"overallScore\":70\x7d\x7d thanks".toList)
    (J.obj [("scorecard", J.obj [("overallScore", J.num 70)])])
    (by decide) (by decide) (by decide) (by decide) (by decide)

/-- C4: a text that is exactly a valid JSON object containing a
`scorecard` key is returned by `extract_json` as the parsed object,
unchanged. -/
theorem c4_theorem (text : List Char) (v : J)
    (h1 : json_loads text = some v)
    (h2 : hasKey v "scorecard" = true) :
    extract_json text = v :=
  extract_json_direct h1

/-- Witness for C4 at a concrete serialized object containing scorecard. -/
theorem c4_witness :
    extract_json ("\x7b\"scorecard\": 1\x7d".toList) = J.obj [("scorecard", J.num 1)] :=
  c4_theorem ("\x7b\"scorecard\": 1\x7d".toList) (J.obj [("scorecard", J.num 1)])
    (by decide) (by decide)

/-- C5: when the direct parse fails and the text contains a json (or
generic) fence, `extract_json` strips to the content between the first
matching fence pair and returns its parse when that content, stripped of
whitespace, parses as JSON. -/
theorem c5_theorem (text : List Char) (v : J)
    (h1 : json_loads text = none)
    (h2 : occurs fenceJson text = true ∨ occurs fence text = true)
    (h3 : json_loads (pystrip (stripFences text)) = some v) :
    extract_json text = v :=
  extract_json_stripped h1 h3

/-- Witness for C5 at the fence example of the specification. -/
theorem c5_witness :
    extract_json
        ("prefix ```json\n\x7b\"scorecard\":\x7b\"overallScore\":70\x7d\x7d\n``` suffix".toList) =
      J.obj [("scorecard", J.obj [("overallScore", J.num 70)])] :=
  c5_theorem
    ("prefix ```json\n\x7b\"scorecard\":\x7b\"overallScore\":70\x7d\x7d\n``` suffix".toList)
    (J.obj [("scorecard", J.obj [("overallScore", J.num 70)])])
    (by decide) (Or.inl (by decide)) (by decide)

/-- C6, counterexample: a text with no brace characters that is not valid
JSON can still avoid the fallback — a fenced number is extracted by the
fence-stripping step, so `extract_json` returns `42`, not the fallback. -/
theorem c6_counterexample :
    ('\x7b' ∉ "```42```".toList) ∧ ('\x7d' ∉ "```42```".toList) ∧
    json_loads ("```42```".toList) = none ∧
    extract_json ("```42```".toList) = J.num 42 ∧
    J.num 42 ≠ get_fallback_response := by decide

/-- C6, amended: for a text with no brace characters where both the direct
parse and the fence-stripped parse fail, `extract_json` returns the
predefined fallback, whose scorecard has overall score 50 and verdict
FAIR. -/
theorem c6_amended_theorem (text : List Char)
    (hb : '\x7b' ∉ text) (hb2 : '\x7d' ∉ text)
    (h1 : json_loads text = none)
    (h2 : json_loads (pystrip (stripFences text)) = none) :
    extract_json text = get_fallback_response ∧
    jgetO (jget get_fallback_response "scorecard") "overallScore" = some (J.num 50) ∧
    jgetO (jget get_fallback_response "scorecard") "verdict" = some (J.str "FAIR") := by
  refine ⟨?_, by decide, by decide⟩
  exact extract_json_fallback_no_brace h1 h2 (pyfind_eq_neg_one (not_mem_stripFences hb))

/-- Witness for C6 at the specification example text. -/
theorem c6_amended_witness :
    extract_json ("I cannot help with that.".toList) = get_fallback_response ∧
    jgetO (jget get_fallback_response "scorecard") "overallScore" = some (J.num 50) ∧
    jgetO (jget get_fallback_response "scorecard") "verdict" = some (J.str "FAIR") :=
  c6_amended_theorem ("I cannot help with that.".toList)
    (by decide) (by decide) (by decide) (by decide)

/-- C7, counterexample: a body string that is not valid JSON is decoded
BEFORE the try block of the analysis handler, so the decode exception
escapes `lambda_handler` instead of being converted to an HTTP 500. -/
theorem c7_counterexample :
    lambda_handler (J.obj [("body", J.str "not json")]) (Except.ok J.null) 0 =
      Except.error PyErr.jsonDecodeError := by rfl

/-- C7, amended: once input parsing (which runs before the try block) has
succeeded, every failure inside the try block — missing required field,
service error, malformed service response — is caught and converted to an
HTTP 500 whose body carries success false, the request identifier, the
error string and the fallback Analysis Result; but a body-decode failure
happens before the try block and escapes the handler uncaught. -/
theorem c7_amended_theorem (event data rid : J) (svc : Except String J)
    (ptime : Nat) (e : PyErr)
    (hpre : anthropic_pre event = Except.ok (data, rid))
    (htry : anthropic_try data rid svc ptime = Except.error e) :
    lambda_handler event svc ptime = Except.ok
      { statusCode := 500,
        body := J.obj [("success", J.bool false), ("requestId", rid),
          ("error", J.str (PyErr.msg e)), ("analysis", get_fallback_response)] } := by
  unfold lambda_handler
  rw [hpre]
  have hh : (match anthropic_try data rid svc ptime with
      | Except.ok r => r
      | Except.error e2 => anthropic_error_response rid e2) =
      anthropic_error_response rid e := by
    rw [htry]
  exact congrArg Except.ok hh

/-- Witness for C7: an event with an empty-object body parses, the prompt
build fails on the missing required `currency` field, and the handler
returns the 500 payload with the fallback analysis. -/
theorem c7_amended_witness :
    lambda_handler (J.obj [("body", J.obj [])]) (Except.ok J.null) 0 = Except.ok
      { statusCode := 500,
        body := J.obj [("success", J.bool false), ("requestId", J.str "unknown"),
          ("error", J.str (PyErr.msg (PyErr.keyError "currency"))),
          ("analysis", get_fallback_response)] } :=
  c7_amended_theorem (J.obj [("body", J.obj [])]) (J.obj []) (J.str "unknown")
    (Except.ok J.null) 0 (PyErr.keyError "currency") (by rfl) (by rfl)

/-- C8, counterexample: the record flow rejects an already-decoded object
body — `json.loads` raises a TypeError, converted to the 500 store-error
response — while the same content as a JSON string body succeeds.  So the
record handler does not accept both body forms. -/
theorem c8_counterexample :
    record_lambda_handler (J.obj [("body", J.obj [("inputs", J.obj [])])]) "id0" "t0"
        (fun _ => Except.ok ()) =
      { statusCode := 500,
        body := J.obj [("message", J.str "Error storing analysis"),
          ("error", J.str "TypeError")] } ∧
    record_lambda_handler (J.obj [("body", J.str "\x7b\"inputs\": \x7b\x7d\x7d")]) "id0" "t0"
        (fun _ => Except.ok ()) =
      { statusCode := 200, body := J.obj [("message", J.str "Success")] } := by
  constructor <;> rfl

/-- C8, amended: the analysis handler accepts both body forms — a JSON
string body decodes to the same handler outcome as the equivalent
already-decoded object body — but the record handler accepts only the
string form: an already-decoded object body raises a TypeError inside its
try block and yields the HTTP 500 store-error response. -/
theorem c8_amended_theorem (s : String) (kvs : List (String × J))
    (svc : Except String J) (ptime : Nat) (aid ct : String)
    (put : J → Except String Unit)
    (hs : json_loads s.toList = some (J.obj kvs)) :
    lambda_handler (J.obj [("body", J.str s)]) svc ptime =
      lambda_handler (J.obj [("body", J.obj kvs)]) svc ptime ∧
    record_lambda_handler (J.obj [("body", J.obj kvs)]) aid ct put =
      { statusCode := 500,
        body := J.obj [("message", J.str "Error storing analysis"),
          ("error", J.str "TypeError")] } := by
  constructor
  · have h1 : parse_event_body (J.obj [("body", J.str s)]) = Except.ok (J.obj kvs) := by
      show (match json_loads s.data with
            | some v => Except.ok v
            | none => Except.error PyErr.jsonDecodeError) = Except.ok (J.obj kvs)
      rw [show json_loads s.data = some (J.obj kvs) from hs]
    have h2 : parse_event_body (J.obj [("body", J.obj kvs)]) = Except.ok (J.obj kvs) := rfl
    unfold lambda_handler anthropic_pre
    rw [h1, h2]
  · rfl

/-- Stepwise evaluation of `build_analysis_prompt` through its section
locals. -/
theorem build_analysis_prompt_steps (data pd loc metrics : J)
    (pdSection projSummary : String)
    (h1 : pyGetD data "propertyDetails" (J.obj []) = Except.ok pd)
    (h2 : pyGetD data "location" (J.obj []) = Except.ok loc)
    (h3 : pyGetD data "calculatedMetrics" (J.obj []) = Except.ok metrics)
    (h4 : property_details_section pd = Except.ok pdSection)
    (h5 : projection_summary data metrics = Except.ok projSummary) :
    build_analysis_prompt data =
      build_prompt_body data loc metrics pdSection projSummary := by
  unfold build_analysis_prompt
  rw [h1]
  simp only [except_bind_ok]
  rw [h2]
  simp only [except_bind_ok]
  rw [h3]
  simp only [except_bind_ok]
  rw [h4]
  simp only [except_bind_ok]
  rw [h5]
  simp only [except_bind_ok]

/-- Evaluation of one projection line when the indexed entry exists and
carries an integer cashflow. -/
theorem projLine_entry (data : J) (curs : String) (projections : List J)
    (label : String) (i : Nat) (c : Int)
    (hcur : pySub data "currency" = Except.ok (J.str curs))
    (hi : projections.get? i = some (J.obj [("yearlyCashflow", J.num c)])) :
    projLine data (J.arr projections) label i =
      Except.ok (projLineStr curs label c) := by
  unfold projLine
  rw [hcur]
  show (do
      let p ← pyIndex (J.arr projections) i
      projLineValue (pystr (J.str curs)) label p) = _
  have hidx : pyIndex (J.arr projections) i =
      Except.ok (J.obj [("yearlyCashflow", J.num c)]) := by
    show (match projections.get? i with
      | some x => Except.ok x
      | none => Except.error PyErr.indexError) = _
    rw [hi]
  rw [hidx]
  rfl

/-- Witness for C8 at the concrete empty-object body. -/
theorem c8_amended_witness :
    lambda_handler (J.obj [("body", J.str "\x7b\x7d")]) (Except.ok J.null) 0 =
      lambda_handler (J.obj [("body", J.obj [])]) (Except.ok J.null) 0 ∧
    record_lambda_handler (J.obj [("body", J.obj [])]) "a" "t"
        (fun _ => Except.ok ()) =
      { statusCode := 500,
        body := J.obj [("message", J.str "Error storing analysis"),
          ("error", J.str "TypeError")] } :=
  c8_amended_theorem "\x7b\x7d" [] (Except.ok J.null) 0 "a" "t"
    (fun _ => Except.ok ()) (by decide)

set_option maxHeartbeats 4000000 in
set_option maxRecDepth 8000 in
/-- C9: for every Analysis Request with integer financial fields whose
propertyDetails group carries arbitrary values for the other optional
fields but no `fibreAvailable`, `waterBackup` or `security24hr` key, the
Prompt Builder succeeds (no exception) and the rendered prompt shows the
literal placeholder `Not specified` on each of those three lines. -/
theorem c9_theorem (cur : String)
    (price dep loan ir lt mr ari vm rates levies ins we wifi sec mp cp clp aei : Int)
    (pn cn bd ba sm fl pb bage lsr act cctv rfa slh sta pf furn : J) :
    ∃ p, build_analysis_prompt (canonicalRequest cur price dep loan ir lt mr ari vm
        rates levies ins we wifi sec mp cp clp aei
        (c9pd pn cn bd ba sm fl pb bage lsr act cctv rfa slh sta pf furn)
        (J.obj [])) = Except.ok p ∧
      containsSub "\n- Fibre Available: Not specified" p = true ∧
      containsSub "\n- Water Backup: Not specified" p = true ∧
      containsSub "\n- 24hr Security: Not specified" p = true := by
  refine ⟨_, rfl, ?_, ?_, ?_⟩ <;>
    · simp only [containsSub, String.toList, String.data_append, List.append_assoc]
      repeat (first
        | exact occurs_two_head _ _ _ _ (by decide)
        | apply occurs_append_left)

set_option maxHeartbeats 4000000 in
set_option maxRecDepth 8000 in
/-- Witness for C9 at a concrete request. -/
theorem c9_witness :
    ∃ p, build_analysis_prompt (canonicalRequest "ZAR" 1450000 145000 1305000
        11 20 12000 8 1 900 1500 300 800 600 300 5 10 2 6
        (c9pd (J.str "A") (J.str "B") (J.num 2) (J.num 1) (J.num 60) (J.num 3)
          (J.num 1) (J.num 10) (J.str "Yes") (J.str "Biometric") (J.bool true)
          (J.bool true) (J.bool false) (J.bool true) (J.bool false) (J.str "Furnished"))
        (J.obj [])) = Except.ok p ∧
      containsSub "\n- Fibre Available: Not specified" p = true ∧
      containsSub "\n- Water Backup: Not specified" p = true ∧
      containsSub "\n- 24hr Security: Not specified" p = true :=
  c9_theorem "ZAR" 1450000 145000 1305000 11 20 12000 8 1 900 1500 300 800 600
    300 5 10 2 6 (J.str "A") (J.str "B") (J.num 2) (J.num 1) (J.num 60)
    (J.num 3) (J.num 1) (J.num 10) (J.str "Yes") (J.str "Biometric")
    (J.bool true) (J.bool true) (J.bool false) (J.bool true) (J.bool false)
    (J.str "Furnished")

set_option maxHeartbeats 4000000 in
set_option maxRecDepth 8000 in
/-- C10: the Prompt Builder includes the 20-Year Projection Summary
section exactly under the guard `len(yearlyProjections) >= 20` — with
fewer than 20 entries the summary local is the empty string and the build
still succeeds; under the guard the list accesses at indices 0, 4, 9 and
19 are in bounds, and when those entries carry integer cashflows the
summary and the full prompt contain the section header. -/
theorem c10_theorem (cur : String)
    (price dep loan ir lt mr ari vm rates levies ins we wifi sec mp cp clp aei : Int)
    (projs : List J) (e0 e4 e9 e19 : Int) :
    (projs.length < 20 →
      projection_summary
          (c10data cur price dep loan ir lt mr ari vm rates levies ins we wifi
            sec mp cp clp aei projs)
          (J.obj [("yearlyProjections", J.arr projs)]) = Except.ok "" ∧
      ∃ p, build_analysis_prompt
          (c10data cur price dep loan ir lt mr ari vm rates levies ins we wifi
            sec mp cp clp aei projs) = Except.ok p) ∧
    (20 ≤ projs.length →
      (projs.get? 0).isSome ∧ (projs.get? 4).isSome ∧
      (projs.get? 9).isSome ∧ (projs.get? 19).isSome) ∧
    (projs.get? 0 = some (J.obj [("yearlyCashflow", J.num e0)]) →
     projs.get? 4 = some (J.obj [("yearlyCashflow", J.num e4)]) →
     projs.get? 9 = some (J.obj [("yearlyCashflow", J.num e9)]) →
     projs.get? 19 = some (J.obj [("yearlyCashflow", J.num e19)]) →
     20 ≤ projs.length →
      ∃ s, projection_summary
          (c10data cur price dep loan ir lt mr ari vm rates levies ins we wifi
            sec mp cp clp aei projs)
          (J.obj [("yearlyProjections", J.arr projs)]) = Except.ok s ∧
        containsSub "\n## 20-Year Projection Summary" s = true ∧
        ∃ p, build_analysis_prompt
            (c10data cur price dep loan ir lt mr ari vm rates levies ins we wifi
              sec mp cp clp aei projs) = Except.ok p ∧
          containsSub "\n## 20-Year Projection Summary" p = true) := by
  refine ⟨?_, ?_, ?_⟩
  · intro hlt
    have hsum : projection_summary
        (c10data cur price dep loan ir lt mr ari vm rates levies ins we wifi
          sec mp cp clp aei projs)
        (J.obj [("yearlyProjections", J.arr projs)]) = Except.ok "" := by
      show (if projs.length ≥ 20 then
          projection_block (c10data cur price dep loan ir lt mr ari vm rates
            levies ins we wifi sec mp cp clp aei projs) (J.arr projs)
        else Except.ok "") = _
      rw [if_neg (by omega)]
    have hbuild := build_analysis_prompt_steps
      (c10data cur price dep loan ir lt mr ari vm rates levies ins we wifi sec
        mp cp clp aei projs)
      (J.obj []) (J.obj []) (J.obj [("yearlyProjections", J.arr projs)]) "" ""
      rfl rfl rfl pd_section_empty hsum
    rw [hbuild]
    exact ⟨hsum, ⟨_, rfl⟩⟩
  · intro hge
    refine ⟨?_, ?_, ?_, ?_⟩ <;>
      · rw [List.get?_eq_getElem?]
        rw [List.getElem?_eq_getElem (by omega)]
        rfl
  · intro h0 h4 h9 h19 hge
    have hb1 := projLine_entry (c10data cur price dep loan ir lt mr ari vm rates
      levies ins we wifi sec mp cp clp aei projs) cur projs "1" 0 e0 rfl h0
    have hb5 := projLine_entry (c10data cur price dep loan ir lt mr ari vm rates
      levies ins we wifi sec mp cp clp aei projs) cur projs "5" 4 e4 rfl h4
    have hb10 := projLine_entry (c10data cur price dep loan ir lt mr ari vm rates
      levies ins we wifi sec mp cp clp aei projs) cur projs "10" 9 e9 rfl h9
    have hb20 := projLine_entry (c10data cur price dep loan ir lt mr ari vm rates
      levies ins we wifi sec mp cp clp aei projs) cur projs "20" 19 e19 rfl h19
    have hblock : projection_block
        (c10data cur price dep loan ir lt mr ari vm rates levies ins we wifi
          sec mp cp clp aei projs)
        (J.arr projs) = Except.ok
        ("\n## 20-Year Projection Summary" ++ projLineStr cur "1" e0 ++
          projLineStr cur "5" e4 ++ projLineStr cur "10" e9 ++
          projLineStr cur "20" e19) := by
      unfold projection_block
      rw [hb1]
      simp only [except_bind_ok]
      rw [hb5]
      simp only [except_bind_ok]
      rw [hb10]
      simp only [except_bind_ok]
      rw [hb20]
      simp only [except_bind_ok]
    have hsum : projection_summary
        (c10data cur price dep loan ir lt mr ari vm rates levies ins we wifi
          sec mp cp clp aei projs)
        (J.obj [("yearlyProjections", J.arr projs)]) = Except.ok
        ("\n## 20-Year Projection Summary" ++ projLineStr cur "1" e0 ++
          projLineStr cur "5" e4 ++ projLineStr cur "10" e9 ++
          projLineStr cur "20" e19) := by
      show (if projs.length ≥ 20 then
          projection_block (c10data cur price dep loan ir lt mr ari vm rates
            levies ins we wifi sec mp cp clp aei projs) (J.arr projs)
        else Except.ok "") = _
      rw [if_pos hge]
      exact hblock
    have hbuild := build_analysis_prompt_steps
      (c10data cur price dep loan ir lt mr ari vm rates levies ins we wifi sec
        mp cp clp aei projs)
      (J.obj []) (J.obj []) (J.obj [("yearlyProjections", J.arr projs)]) ""
      ("\n## 20-Year Projection Summary" ++ projLineStr cur "1" e0 ++
        projLineStr cur "5" e4 ++ projLineStr cur "10" e9 ++
        projLineStr cur "20" e19)
      rfl rfl rfl pd_section_empty hsum
    refine ⟨_, hsum, ?_, ?_⟩
    · simp only [containsSub, String.toList, String.data_append, List.append_assoc]
      repeat (first
        | exact occurs_head _ _ _ (by decide)
        | apply occurs_append_left)
    · simp only [hbuild]
      refine ⟨_, rfl, ?_⟩
      simp only [containsSub, String.toList, String.data_append, List.append_assoc]
      repeat (first
        | exact occurs_head _ _ _ (by decide)
        | apply occurs_append_left)

set_option maxHeartbeats 4000000 in
set_option maxRecDepth 8000 in
/-- Witness for C10 at twenty concrete projection entries. -/
theorem c10_witness :
    (((List.replicate 20 (J.obj [("yearlyCashflow", J.num 7)])).get? 0).isSome ∧
     ((List.replicate 20 (J.obj [("yearlyCashflow", J.num 7)])).get? 4).isSome ∧
     ((List.replicate 20 (J.obj [("yearlyCashflow", J.num 7)])).get? 9).isSome ∧
     ((List.replicate 20 (J.obj [("yearlyCashflow", J.num 7)])).get? 19).isSome) ∧
    ∃ s, projection_summary
        (c10data "ZAR" 0 0 0 0 0 0 0 0 0 0 0 0 0 0 0 0 0 0
          (List.replicate 20 (J.obj [("yearlyCashflow", J.num 7)])))
        (J.obj [("yearlyProjections",
          J.arr (List.replicate 20 (J.obj [("yearlyCashflow", J.num 7)])))]) =
        Except.ok s ∧
      containsSub "\n## 20-Year Projection Summary" s = true ∧
      ∃ p, build_analysis_prompt
          (c10data "ZAR" 0 0 0 0 0 0 0 0 0 0 0 0 0 0 0 0 0 0
            (List.replicate 20 (J.obj [("yearlyCashflow", J.num 7)]))) =
          Except.ok p ∧
        containsSub "\n## 20-Year Projection Summary" p = true := by
  have h := c10_theorem "ZAR" 0 0 0 0 0 0 0 0 0 0 0 0 0 0 0 0 0 0
    (List.replicate 20 (J.obj [("yearlyCashflow", J.num 7)])) 7 7 7 7
  exact ⟨h.2.1 (by decide),
    h.2.2 (by decide) (by decide) (by decide) (by decide) (by decide)⟩

end RPIC
